import Mathlib

/-!
Shallow embedding of the request handlers in
`src/lambda-gateway/src/lambda/handler.ts` together with the secret-fetch
utility contract from `src/lambda-gateway/utils/fetchSecret.ts`.

Modelling conventions:
* The module-level mutable variables `users` and `requestCount` become an
  explicit `ApiState` threaded through every handler.
* Values produced by `JSON.parse` are modelled by the inductive `Json`;
  a failed (throwing) parse is the `none` of an `Option Json` input.
  JSON numbers are modelled as integers; no claim touches non-integral
  numeric payloads.
* Nondeterministic inputs of the source (`Math.random()`, `new Date()`,
  `process.uptime()`, the generated id string, the result of `fetchSecret`)
  are passed to each handler as explicit parameters.
* A handler that can terminate by an uncaught exception (`createProfile`
  on an unparsable or `null` body) returns an `Option`; `none` is the
  uncaught throw, in which case no response is produced and no state
  mutation has happened.
* Machine words inside SHA-256 are natural numbers reduced modulo `2 ^ 32`.
-/

namespace Gateway

/-- A JSON value as produced by `JSON.parse`.  Object fields keep their
textual order; duplicate keys are resolved by `getProp` keeping the last
occurrence, as `JSON.parse` does. -/
inductive Json where
  | null
  | jbool (b : Bool)
  | jnum (n : Int)
  | jstr (s : String)
  | jarr (elems : List Json)
  | jobj (fields : List (String × Json))

/-- JavaScript truthiness of a JSON value (`Boolean(v)`). -/
def truthy : Json → Bool
  | Json.null => false
  | Json.jbool b => b
  | Json.jnum n => n != 0
  | Json.jstr s => s != ""
  | Json.jarr _ => true
  | Json.jobj _ => true

/-- Truthiness of a possibly-undefined value (`none` models `undefined`). -/
def optTruthy : Option Json → Bool
  | none => false
  | some j => truthy j

/-- Last-occurrence field lookup, matching the duplicate-key behaviour of
`JSON.parse` followed by property access. -/
def lookupField (fields : List (String × Json)) (k : String) : Option Json :=
  fields.foldl (fun acc p => if p.1 = k then some p.2 else acc) none

/-- JavaScript property access `j[k]` on a non-null value: a field of an
object, `undefined` (`none`) on every non-object.  Access on `null` throws
and is handled separately in each handler. -/
def getProp (j : Json) (k : String) : Option Json :=
  match j with
  | Json.jobj fields => lookupField fields k
  | _ => none

mutual

/-- JavaScript string conversion `String(v)` of a JSON value, as used by the
template literal that builds the default email. -/
def jsToString : Json → String
  | Json.null => "null"
  | Json.jbool true => "true"
  | Json.jbool false => "false"
  | Json.jnum n => toString n
  | Json.jstr s => s
  | Json.jarr xs => jsArrToString xs
  | Json.jobj _ => "[object Object]"

/-- `Array.prototype.toString`: elements joined by commas, `null` elements
rendered empty. -/
def jsArrToString : List Json → String
  | [] => ""
  | [Json.null] => ""
  | [x] => jsToString x
  | Json.null :: x :: xs => "," ++ jsArrToString (x :: xs)
  | x :: y :: xs => jsToString x ++ "," ++ jsArrToString (y :: xs)

end

/-- String conversion of a possibly-undefined value: `String(undefined)` is
`"undefined"`. -/
def jsOptToString : Option Json → String
  | none => "undefined"
  | some j => jsToString j

/-- One record of the in-memory `users` array.  `username` is stored exactly
as read from the request body (`none` when the field is absent); `email` is
whatever value the source stores (a supplied truthy value unchanged, or the
derived default string). -/
structure UserRecord where
  id : String
  username : Option Json
  email : Json
  createdAt : String

/-- The module-level mutable state of `handler.ts`: the `users` array and
the `requestCount` counter. -/
structure ApiState where
  users : List UserRecord
  requestCount : Nat

/-! ### HMAC-SHA256, as invoked by `crypto.createHmac("sha256", key).update(u).digest("hex")`

Bytes are natural numbers below 256; 32-bit words are natural numbers
reduced modulo `2 ^ 32` after every operation that can overflow. -/

/-- Reduce a word modulo `2 ^ 32`. -/
def w32 (x : Nat) : Nat := x % 2 ^ 32

/-- Rotate a 32-bit word right by `n` bits. -/
def rotr (n x : Nat) : Nat := w32 ((x >>> n) ||| (x <<< (32 - n)))

/-- SHA-256 `Ch(x, y, z)`. -/
def shaCh (x y z : Nat) : Nat := (x &&& y) ^^^ ((x ^^^ (2 ^ 32 - 1)) &&& z)

/-- SHA-256 `Maj(x, y, z)`. -/
def shaMaj (x y z : Nat) : Nat := (x &&& y) ^^^ (x &&& z) ^^^ (y &&& z)

/-- SHA-256 `Σ₀`. -/
def bsig0 (x : Nat) : Nat := rotr 2 x ^^^ rotr 13 x ^^^ rotr 22 x

/-- SHA-256 `Σ₁`. -/
def bsig1 (x : Nat) : Nat := rotr 6 x ^^^ rotr 11 x ^^^ rotr 25 x

/-- SHA-256 `σ₀`. -/
def ssig0 (x : Nat) : Nat := rotr 7 x ^^^ rotr 18 x ^^^ (x >>> 3)

/-- SHA-256 `σ₁`. -/
def ssig1 (x : Nat) : Nat := rotr 17 x ^^^ rotr 19 x ^^^ (x >>> 10)

/-- The 64 SHA-256 round constants, in the eight rows of the FIPS 180-4
table. -/
def K256 : List Nat :=
  [0x428a2f98, 0x71374491, 0xb5c0fbcf, 0xe9b5dba5,
   0x3956c25b, 0x59f111f1, 0x923f82a4, 0xab1c5ed5] ++
  [0xd807aa98, 0x12835b01, 0x243185be, 0x550c7dc3,
   0x72be5d74, 0x80deb1fe, 0x9bdc06a7, 0xc19bf174] ++
  [0xe49b69c1, 0xefbe4786, 0x0fc19dc6, 0x240ca1cc,
   0x2de92c6f, 0x4a7484aa, 0x5cb0a9dc, 0x76f988da] ++
  [0x983e5152, 0xa831c66d, 0xb00327c8, 0xbf597fc7,
   0xc6e00bf3, 0xd5a79147, 0x06ca6351, 0x14292967] ++
  [0x27b70a85, 0x2e1b2138, 0x4d2c6dfc, 0x53380d13,
   0x650a7354, 0x766a0abb, 0x81c2c92e, 0x92722c85] ++
  [0xa2bfe8a1, 0xa81a664b, 0xc24b8b70, 0xc76c51a3,
   0xd192e819, 0xd6990624, 0xf40e3585, 0x106aa070] ++
  [0x19a4c116, 0x1e376c08, 0x2748774c, 0x34b0bcb5,
   0x391c0cb3, 0x4ed8aa4a, 0x5b9cca4f, 0x682e6ff3] ++
  [0x748f82ee, 0x78a5636f, 0x84c87814, 0x8cc70208,
   0x90befffa, 0xa4506ceb, 0xbef9a3f7, 0xc67178f2]

/-- The eight-word SHA-256 working state. -/
structure Hash8 where
  a : Nat
  b : Nat
  c : Nat
  d : Nat
  e : Nat
  f : Nat
  g : Nat
  h : Nat

/-- The SHA-256 initial hash value. -/
def initH : Hash8 :=
  ⟨0x6a09e667, 0xbb67ae85, 0x3c6ef372, 0xa54ff53a,
   0x510e527f, 0x9b05688c, 0x1f83d9ab, 0x5be0cd19⟩

/-- Big-endian packing of groups of four bytes into 32-bit words. -/
def toWords : List Nat → List Nat
  | b0 :: b1 :: b2 :: b3 :: rest =>
      (((b0 * 256 + b1) * 256 + b2) * 256 + b3) :: toWords rest
  | _ => []

/-- Extend the 16 block words by `n` further schedule words. -/
def extendWords : Nat → List Nat → List Nat
  | 0, ws => ws
  | n + 1, ws =>
      let t := ws.length
      let w := w32 (ssig1 (ws.getD (t - 2) 0) + ws.getD (t - 7) 0 +
        ssig0 (ws.getD (t - 15) 0) + ws.getD (t - 16) 0)
      extendWords n (ws ++ [w])

/-- One SHA-256 compression round for the pair of a round constant and a
schedule word. -/
def shaRound (st : Hash8) (kw : Nat × Nat) : Hash8 :=
  let t1 := w32 (st.h + bsig1 st.e + shaCh st.e st.f st.g + kw.1 + kw.2)
  let t2 := w32 (bsig0 st.a + shaMaj st.a st.b st.c)
  ⟨w32 (t1 + t2), st.a, st.b, st.c, w32 (st.d + t1), st.e, st.f, st.g⟩

/-- Process one 64-byte block. -/
def compress (st : Hash8) (block : List Nat) : Hash8 :=
  let ws := extendWords 48 (toWords block)
  let r := (K256.zip ws).foldl shaRound st
  ⟨w32 (st.a + r.a), w32 (st.b + r.b), w32 (st.c + r.c), w32 (st.d + r.d),
   w32 (st.e + r.e), w32 (st.f + r.f), w32 (st.g + r.g), w32 (st.h + r.h)⟩

/-- Chunk splitter with explicit fuel; the recursion is structural on the
fuel so that the kernel can evaluate it.  Each step consumes a non-empty
prefix, so fuel equal to the list length is always sufficient and the
`0, _ :: _` branch is never reached from `chunks64`. -/
def chunks64Go : Nat → List Nat → List (List Nat)
  | _, [] => []
  | 0, _ :: _ => []
  | fuel + 1, x :: rest =>
      ((x :: rest).take 64) :: chunks64Go fuel ((x :: rest).drop 64)

/-- Split a byte list into 64-byte chunks. -/
def chunks64 (l : List Nat) : List (List Nat) := chunks64Go l.length l

/-- Big-endian 8-byte encoding of a length in bits. -/
def u64be (x : Nat) : List Nat :=
  [x / 2 ^ 56 % 256, x / 2 ^ 48 % 256, x / 2 ^ 40 % 256, x / 2 ^ 32 % 256,
   x / 2 ^ 24 % 256, x / 2 ^ 16 % 256, x / 2 ^ 8 % 256, x % 256]

/-- Big-endian 4-byte encoding of a 32-bit word. -/
def u32be (x : Nat) : List Nat :=
  [x / 2 ^ 24 % 256, x / 2 ^ 16 % 256, x / 2 ^ 8 % 256, x % 256]

/-- SHA-256 padding: `0x80`, zeros to 56 mod 64, the bit length. -/
def padMessage (msg : List Nat) : List Nat :=
  let len := msg.length
  let zeros := (64 + 56 - (len + 1) % 64) % 64
  msg ++ [0x80] ++ List.replicate zeros 0 ++ u64be (len * 8)

/-- SHA-256 of a byte list, as a 32-byte digest. -/
def sha256 (msg : List Nat) : List Nat :=
  let r := (chunks64 (padMessage msg)).foldl compress initH
  u32be r.a ++ u32be r.b ++ u32be r.c ++ u32be r.d ++
  u32be r.e ++ u32be r.f ++ u32be r.g ++ u32be r.h

/-- HMAC-SHA256 of `msg` under `key` (FIPS 198-1 with a 64-byte block). -/
def hmacSha256 (key msg : List Nat) : List Nat :=
  let k1 := if 64 < key.length then sha256 key else key
  let k0 := k1 ++ List.replicate (64 - k1.length) 0
  sha256 ((k0.map (fun b => b ^^^ 0x5c)) ++
    sha256 ((k0.map (fun b => b ^^^ 0x36)) ++ msg))

/-- UTF-8 encoding of one character. -/
def charUtf8 (c : Char) : List Nat :=
  let n := c.toNat
  if n < 0x80 then [n]
  else if n < 0x800 then [0xC0 + n / 0x40, 0x80 + n % 0x40]
  else if n < 0x10000 then
    [0xE0 + n / 0x1000, 0x80 + n / 0x40 % 0x40, 0x80 + n % 0x40]
  else
    [0xF0 + n / 0x40000, 0x80 + n / 0x1000 % 0x40,
     0x80 + n / 0x40 % 0x40, 0x80 + n % 0x40]

/-- UTF-8 bytes of a string, the encoding `hmac.update` applies to string
arguments. -/
def utf8Bytes (s : String) : List Nat := s.data.flatMap charUtf8

/-- The sixteen lower-case hexadecimal digits. -/
def hexChars : List Char := "0123456789abcdef".data

/-- Two lower-case hex characters of one byte. -/
def hexOfByte (b : Nat) : List Char :=
  [hexChars.getD (b / 16 % 16) '0', hexChars.getD (b % 16) '0']

/-- `digest("hex")`: the lower-case hexadecimal rendering of a byte list. -/
def hexDigest (bytes : List Nat) : String := String.mk (bytes.flatMap hexOfByte)

/-- The digest computed by `loginRoute`:
`crypto.createHmac("sha256", encryptionKey).update(username).digest("hex")`. -/
def authenticate (encryptionKey username : String) : String :=
  hexDigest (hmacSha256 (utf8Bytes encryptionKey) (utf8Bytes username))

/-! ### The handlers of `handler.ts`, with the mutable module state threaded
explicitly. -/

/-- Response of `homeRoute`. -/
structure HomeResponse where
  statusCode : Nat
  message : String
  timestamp : String
  requestNumber : Nat

/-- `homeRoute` (GET `/`): increments the counter and reports it. -/
def homeRoute (s : ApiState) (ts : String) : ApiState × HomeResponse :=
  let s' : ApiState := { users := s.users, requestCount := s.requestCount + 1 }
  (s', { statusCode := 200, message := "Welcome to the API! 🚀",
         timestamp := ts, requestNumber := s'.requestCount })

/-- Response of `loginRoute`: a 200 body carries the digest under the
`username` key, a 500 body only the generic message. -/
structure LoginResponse where
  statusCode : Nat
  username : Option String
  message : Option String

/-- JavaScript truthiness of the `string | undefined` returned by
`fetchSecret`, as tested by `secretValue ? ... : ...`. -/
def secretTruthy : Option String → Bool
  | some sv => sv != ""
  | none => false

/-- Whether a parsed JSON value is `null` — the one `JSON.parse` result on
which destructuring or property access throws a `TypeError`. -/
def jsIsNull : Json → Bool
  | Json.null => true
  | _ => false

/-- The response computed by the `try`/`catch` body of `loginRoute`.
Inputs:
* `parsedBody` — result of `JSON.parse(event.body ?? "...")` where the
  fallback text is the empty-object literal, so an absent body arrives as
  `some (Json.jobj [])` and a parse throw as `none`;
* `secretValue` — result of `fetchSecret(process.env.SECRET_ID || "")`,
  `none` when the secret could not be resolved;
* `parsedSecret` — result of `JSON.parse(secretValue)`, consulted only when
  `secretValue` is truthy, `none` for a parse throw.

Every throw inside the `try` block (body parse throw, destructuring a
parsed `null`, secret parse throw, `createHmac` on a non-string key,
`update` on a non-string username) is caught and becomes the generic 500
response. -/
def loginResponse (parsedBody : Option Json)
    (secretValue : Option String) (parsedSecret : Option Json) :
    LoginResponse :=
  let err : LoginResponse :=
    { statusCode := 500, username := none,
      message := some "Internal Server Error" }
  match parsedBody with
  | none => err
  | some body =>
    if jsIsNull body then err
    else
      let username := getProp body "username"
      let keyVal : Option (Option Json) :=
        if secretTruthy secretValue then
          match parsedSecret with
          | none => none
          | some sj =>
              if jsIsNull sj then none else some (getProp sj "encryptionKey")
        else some (some (Json.jstr ""))
      match keyVal with
      | none => err
      | some ek =>
        match ek, username with
        | some (Json.jstr k), some (Json.jstr u) =>
            { statusCode := 200, username := some (authenticate k u),
              message := none }
        | _, _ => err

/-- `loginRoute` (POST `/login`): the source never reads or writes `users`
or `requestCount`, so the state passes through untouched. -/
def loginRoute (s : ApiState) (parsedBody : Option Json)
    (secretValue : Option String) (parsedSecret : Option Json) :
    ApiState × LoginResponse :=
  (s, loginResponse parsedBody secretValue parsedSecret)

/-- The key and username strings that reach the digest computation of
`loginRoute`, following exactly the branch structure of `loginResponse`;
`none` on every branch that throws into the `catch`. -/
def loginKeyUser (parsedBody : Option Json)
    (secretValue : Option String) (parsedSecret : Option Json) :
    Option (String × String) :=
  match parsedBody with
  | none => none
  | some body =>
    if jsIsNull body then none
    else
      let keyVal : Option (Option Json) :=
        if secretTruthy secretValue then
          match parsedSecret with
          | none => none
          | some sj =>
              if jsIsNull sj then none else some (getProp sj "encryptionKey")
        else some (some (Json.jstr ""))
      match keyVal with
      | none => none
      | some ek =>
        match ek, getProp body "username" with
        | some (Json.jstr k), some (Json.jstr u) => some (k, u)
        | _, _ => none

/-- The exact condition under which `loginRoute` answers 500: some throw
reached the `catch`, i.e. no key/username pair reached the digest. -/
def loginFails (parsedBody : Option Json)
    (secretValue : Option String) (parsedSecret : Option Json) : Bool :=
  (loginKeyUser parsedBody secretValue parsedSecret).isNone

/-- Modelled from the spec words of the error-handling claim: the causes it
lists for a 500 response are a secret-JSON parse failure and a
malformed/non-string username input (a body that fails to parse, parses to
`null`, or carries no string `username`). -/
def loginFailsPerSpec (parsedBody : Option Json)
    (secretValue : Option String) (parsedSecret : Option Json) : Bool :=
  (match parsedBody with
   | none => true
   | some Json.null => true
   | some body =>
     match getProp body "username" with
     | some (Json.jstr _) => false
     | _ => true) ||
  (secretTruthy secretValue &&
   (match parsedSecret with
    | none => true
    | some _ => false))

/-- Response of `createProfile`. -/
structure CreateResponse where
  statusCode : Nat
  message : String
  user : UserRecord
  totalUsers : Nat

/-- `createProfile` (POST `/profile`).  `parsedBody` is the result of
`JSON.parse(event.body ?? "...")` with the empty-object fallback; `newId`
stands for `Math.random().toString(36).substring(7)` and `ts` for
`new Date().toISOString()`.  There is no try/catch: a body parse throw
(`none`) or property access on a parsed `null` escapes the handler, which
the model renders as `none` — no response, no state change. -/
def createProfile (s : ApiState) (parsedBody : Option Json)
    (newId ts : String) : Option (ApiState × CreateResponse) :=
  match parsedBody with
  | none => none
  | some Json.null => none
  | some body =>
    let username := getProp body "username"
    let emailVal := getProp body "email"
    let newUser : UserRecord :=
      { id := newId,
        username := username,
        email :=
          match emailVal with
          | some e =>
              if truthy e then e
              else Json.jstr (jsOptToString username ++ "@example.com")
          | none => Json.jstr (jsOptToString username ++ "@example.com"),
        createdAt := ts }
    let s' : ApiState :=
      { users := s.users ++ [newUser], requestCount := s.requestCount + 1 }
    some (s', { statusCode := 201, message := "Profile created successfully! 🎉",
                user := newUser, totalUsers := s'.users.length })

/-- Response of `getUsers`. -/
structure GetUsersResponse where
  statusCode : Nat
  message : String
  users : List UserRecord
  count : Nat

/-- `getUsers` (GET `/users`): counts the request and returns the whole
collection with its size. -/
def getUsers (s : ApiState) : ApiState × GetUsersResponse :=
  let s' : ApiState := { users := s.users, requestCount := s.requestCount + 1 }
  (s', { statusCode := 200, message := "Users retrieved successfully",
         users := s.users, count := s.users.length })

/-- Response of `deleteUser`: `remainingUsers` is present only in the 200
body. -/
structure DeleteResponse where
  statusCode : Nat
  message : String
  remainingUsers : Option Nat

/-- `deleteUser` (DELETE `/users/(id)`).  `pathId` is
`event.pathParameters?.id`; the `!userId` guard treats both an absent and an
empty id as missing and returns 400 before any state is touched.  Otherwise
the filter drops every record whose id matches, the counter is incremented,
and the length comparison picks 200 or 404. -/
def deleteUser (s : ApiState) (pathId : Option String) :
    ApiState × DeleteResponse :=
  let missing : ApiState × DeleteResponse :=
    (s, { statusCode := 400, message := "User ID is required",
          remainingUsers := none })
  match pathId with
  | none => missing
  | some userId =>
    if userId = "" then missing
    else
      let initialLength := s.users.length
      let users' := s.users.filter (fun u => u.id != userId)
      let s' : ApiState := { users := users', requestCount := s.requestCount + 1 }
      if users'.length < initialLength then
        (s', { statusCode := 200, message := "User deleted successfully! 🗑️",
               remainingUsers := some users'.length })
      else
        (s', { statusCode := 404, message := "User not found",
               remainingUsers := none })

/-- One quote of the catalog. -/
structure Quotation where
  text : String
  author : String

/-- The fixed catalog literal inside `getRandomQuote`. -/
def quotes : List Quotation :=
  [{ text := "The only way to do great work is to love what you do.",
     author := "Steve Jobs" },
   { text := "Innovation distinguishes between a leader and a follower.",
     author := "Steve Jobs" },
   { text := "Code is like humor. When you have to explain it, it\x27s bad.",
     author := "Cory House" },
   { text := "First, solve the problem. Then, write the code.",
     author := "John Johnson" },
   { text := "Experience is the name everyone gives to their mistakes.",
     author := "Oscar Wilde" },
   { text := "Simplicity is the soul of efficiency.",
     author := "Austin Freeman" },
   { text := "Make it work, make it right, make it fast.",
     author := "Kent Beck" },
   { text := "Any fool can write code that a computer can understand. Good programmers write code that humans can understand.",
     author := "Martin Fowler" }]

/-- Response of `getRandomQuote`; `quote` is an `Option` because JavaScript
array indexing out of range yields `undefined`. -/
structure QuoteResponse where
  statusCode : Nat
  quote : Option Quotation
  timestamp : String

/-- `getRandomQuote` (GET `/quote`).  `r` stands for the `Math.random()`
draw; the selected index is `Math.floor(r * quotes.length)`.  The draw lies
in `[0, 1)` and multiplication by the list length 8 = 2 ^ 3 only shifts the
binary exponent, so the rational model of the float computation is exact. -/
def getRandomQuote (s : ApiState) (r : ℚ) (ts : String) :
    ApiState × QuoteResponse :=
  let s' : ApiState := { users := s.users, requestCount := s.requestCount + 1 }
  let idx := Int.toNat ⌊r * (quotes.length : ℚ)⌋
  (s', { statusCode := 200, quote := quotes[idx]?, timestamp := ts })

/-- Response of `getStats` (the memory-usage object is outside the model;
no claim touches it). -/
structure StatsResponse where
  statusCode : Nat
  totalRequests : Nat
  totalUsers : Nat
  uptime : ℚ
  timestamp : String

/-- `getStats` (GET `/stats`): increments the counter first, then snapshots
it together with the live user count. -/
def getStats (s : ApiState) (uptime : ℚ) (ts : String) :
    ApiState × StatsResponse :=
  let s' : ApiState := { users := s.users, requestCount := s.requestCount + 1 }
  (s', { statusCode := 200, totalRequests := s'.requestCount,
         totalUsers := s.users.length, uptime := uptime, timestamp := ts })

/-- A sequence of `createProfile` calls with no intervening deletes, each
with its own parsed body, generated id and timestamp; `none` as soon as one
call throws. -/
def runCreates (s : ApiState) : List (Json × String × String) → Option ApiState
  | [] => some s
  | (b, nid, ts) :: rest =>
    match createProfile s (some b) nid ts with
    | none => none
    | some (s', _) => runCreates s' rest

/-! ### Helper lemmas -/

/-- Filtering on a non-matching id keeps the collection unchanged. -/
lemma filter_id_eq_self (l : List UserRecord) (i : String)
    (h : i ∉ l.map UserRecord.id) :
    l.filter (fun u => u.id != i) = l := by
  apply List.filter_eq_self.mpr
  intro u hu
  simp only [bne_iff_ne, ne_eq, decide_eq_true_eq]
  intro he
  exact h (he ▸ List.mem_map_of_mem UserRecord.id hu)

/-- Under pairwise-distinct ids, filtering out a present id removes exactly
one record. -/
lemma filter_id_length (l : List UserRecord) (i : String)
    (hnodup : (l.map UserRecord.id).Nodup) (hmem : i ∈ l.map UserRecord.id) :
    (l.filter (fun u => u.id != i)).length + 1 = l.length := by
  induction l with
  | nil => simp at hmem
  | cons u l ih =>
    simp only [List.map_cons, List.nodup_cons] at hnodup
    obtain ⟨hni, hnd⟩ := hnodup
    by_cases he : u.id = i
    · subst he
      have hf := filter_id_eq_self l u.id hni
      simp [List.filter_cons, hf]
    · have hmem' : i ∈ l.map UserRecord.id := by
        rcases List.mem_cons.mp hmem with h | h
        · exact absurd h.symm he
        · exact h
      have h2 := ih hnd hmem'
      have hp : (u.id != i) = true := by simp [he]
      simp only [List.filter_cons, hp, if_true, List.length_cons]
      omega

/-- No record with the filtered-out id survives the filter. -/
lemma not_mem_filter_ids (l : List UserRecord) (i : String) :
    i ∉ (l.filter (fun u => u.id != i)).map UserRecord.id := by
  simp only [List.mem_map, List.mem_filter, bne_iff_ne, ne_eq,
    decide_eq_true_eq, not_exists, not_and]
  intro u hu
  exact fun h => absurd h hu.2

/-- Inversion of a successful `createProfile` call: the new collection is
the old one with exactly the returned record appended, that record carries
the generated id, and the counter advanced by one. -/
lemma createProfile_some {s : ApiState} {b : Json} {nid ts : String}
    {s' : ApiState} {r : CreateResponse}
    (h : createProfile s (some b) nid ts = some (s', r)) :
    s'.users = s.users ++ [r.user] ∧ r.user.id = nid ∧
    s'.requestCount = s.requestCount + 1 ∧ r.statusCode = 201 := by
  cases b
  case null => simp [createProfile] at h
  all_goals
    simp only [createProfile, Option.some.injEq, Prod.mk.injEq] at h
    obtain ⟨hs, hr⟩ := h
    subst hs; subst hr
    exact ⟨rfl, rfl, rfl, rfl⟩

/-- The email stored by a successful `createProfile` call, expressed over
the body fields: a truthy supplied email unchanged, the derived template
string otherwise. -/
lemma createProfile_email {s : ApiState} {b : Json} {nid ts : String}
    {s' : ApiState} {r : CreateResponse}
    (h : createProfile s (some b) nid ts = some (s', r)) :
    r.user.email =
      match getProp b "email" with
      | some e =>
          if truthy e then e
          else Json.jstr (jsOptToString (getProp b "username") ++ "@example.com")
      | none =>
          Json.jstr (jsOptToString (getProp b "username") ++ "@example.com") := by
  cases b
  case null => simp [createProfile] at h
  all_goals
    simp only [createProfile, Option.some.injEq, Prod.mk.injEq] at h
    obtain ⟨hs, hr⟩ := h
    subst hr
    rfl

/-- A run of creates appends records whose ids are, in order, exactly the
generated-id inputs. -/
lemma runCreates_ids (inputs : List (Json × String × String)) :
    ∀ s s', runCreates s inputs = some s' →
      s'.users.map UserRecord.id =
        s.users.map UserRecord.id ++ inputs.map (fun t => t.2.1) := by
  induction inputs with
  | nil =>
    intro s s' h
    simp only [runCreates, Option.some.injEq] at h
    subst h
    simp
  | cons t rest ih =>
    intro s s' h
    obtain ⟨b, nid, ts⟩ := t
    simp only [runCreates] at h
    rcases hc : createProfile s (some b) nid ts with _ | p
    · rw [hc] at h; exact absurd h (by simp)
    · obtain ⟨s₁, r⟩ := p
      rw [hc] at h
      obtain ⟨hu, hid, -, -⟩ := createProfile_some hc
      have := ih s₁ s' h
      rw [this, hu]
      simp [hid]

/-- Two hex characters per byte. -/
lemma length_flatMap_hexOfByte (l : List Nat) :
    (l.flatMap hexOfByte).length = 2 * l.length := by
  induction l with
  | nil => rfl
  | cons b l ih => simp [hexOfByte, ih]; ring

/-- `getD` into the hex table stays inside the table. -/
lemma getD_hexChars_mem (i : Nat) : hexChars.getD (i % 16) '0' ∈ hexChars := by
  have h : i % 16 < hexChars.length := Nat.mod_lt _ (by simp [hexChars])
  rw [List.getD_eq_getElem hexChars '0' h]
  exact List.getElem_mem h

/-- Every character emitted for a byte is a lower-case hex digit. -/
lemma mem_hexOfByte {c : Char} {b : Nat} (h : c ∈ hexOfByte b) :
    c ∈ hexChars := by
  simp only [hexOfByte, List.mem_cons, List.not_mem_nil, or_false] at h
  rcases h with h | h
  · exact h ▸ getD_hexChars_mem (b / 16)
  · exact h ▸ getD_hexChars_mem b

/-- A SHA-256 digest is 32 bytes. -/
lemma sha256_length (msg : List Nat) : (sha256 msg).length = 32 := by
  simp [sha256, u32be]

/-- An HMAC-SHA256 digest is 32 bytes. -/
lemma hmacSha256_length (key msg : List Nat) :
    (hmacSha256 key msg).length = 32 := by
  simp only [hmacSha256]
  exact sha256_length _

/-- Alignment of `loginResponse` with the extracted key/username pair: the
handler answers 200 with the digest exactly when a pair reached the digest
computation, and the generic 500 body otherwise. -/
lemma loginResponse_eq (pb : Option Json) (sv : Option String)
    (ps : Option Json) :
    loginResponse pb sv ps =
      match loginKeyUser pb sv ps with
      | some ku => { statusCode := 200, username := some (authenticate ku.1 ku.2),
                     message := none }
      | none => { statusCode := 500, username := none,
                  message := some "Internal Server Error" } := by
  rcases pb with _ | body
  · rfl
  simp only [loginResponse, loginKeyUser]
  by_cases hnull : jsIsNull body = true
  · simp [hnull]
  simp only [hnull, Bool.false_eq_true, if_false]
  by_cases hs : secretTruthy sv = true
  · simp only [hs, if_true]
    rcases ps with _ | sj
    · rfl
    by_cases hsn : jsIsNull sj = true
    · simp [hsn]
    simp only [hsn, Bool.false_eq_true, if_false]
    generalize getProp sj "encryptionKey" = ek
    generalize getProp body "username" = un
    rcases ek with _ | ekj
    · rfl
    rcases ekj <;> rcases un with _ | unj <;>
      first
        | rfl
        | (rcases unj <;> rfl)
  · simp only [hs, Bool.false_eq_true, if_false]
    generalize getProp body "username" = un
    rcases un with _ | unj
    · rfl
    rcases unj <;> rfl

/-! ### Concrete fixtures for witnesses and counterexamples -/

/-- The module state right after a cold start: no users, zero requests. -/
def emptyState : ApiState := ⟨[], 0⟩

/-- A concrete user record with a chosen id. -/
def mkRec (i : String) : UserRecord :=
  { id := i, username := some (Json.jstr "u"),
    email := Json.jstr "u@example.com", createdAt := "t" }

/-- Two create calls whose generated-id inputs collide (as two equal
`Math.random()` draws would produce). -/
def dupDraws : List (Json × String × String) :=
  [(Json.jobj [], "x", "t"), (Json.jobj [], "x", "t")]

/-- Two create calls with distinct generated ids. -/
def twoDraws : List (Json × String × String) :=
  [(Json.jobj [], "x", "t"), (Json.jobj [], "y", "t")]

/-- The state produced by running `twoDraws` from a cold start. -/
def twoState : ApiState :=
  ⟨[⟨"x", none, Json.jstr ("undefined" ++ "@example.com"), "t"⟩,
    ⟨"y", none, Json.jstr ("undefined" ++ "@example.com"), "t"⟩], 2⟩

/-- A profile body carrying a username and an explicitly empty email. -/
def aliceBody : Json :=
  Json.jobj [("username", Json.jstr "alice"), ("email", Json.jstr "")]

/-- The record `createProfile` builds from `aliceBody` with id `"i"` at
time `"t"`. -/
def aliceRec : UserRecord :=
  ⟨"i", some (Json.jstr "alice"), Json.jstr ("alice" ++ "@example.com"), "t"⟩

/-- The state after creating `aliceRec` from a cold start. -/
def aliceState : ApiState := ⟨[aliceRec], 1⟩

/-- The response returned for `aliceBody`. -/
def aliceResp : CreateResponse :=
  ⟨201, "Profile created successfully! 🎉", aliceRec, 1⟩

/-- The record built from an empty-object body. -/
def undefRec : UserRecord :=
  ⟨"i", none, Json.jstr ("undefined" ++ "@example.com"), "t"⟩

/-- The state after creating `undefRec` from a cold start. -/
def undefState : ApiState := ⟨[undefRec], 1⟩

/-- The response returned for the empty-object body. -/
def undefResp : CreateResponse :=
  ⟨201, "Profile created successfully! 🎉", undefRec, 1⟩

/-- A login body whose `username` field is the string `"bob"`. -/
def bobBody : Json := Json.jobj [("username", Json.jstr "bob")]

/-! ### The claims -/

/-- **C1, counterexample.**  As stated over every directory state and every
present id the claim fails twice.  With two records sharing an id (possible
because ids are independent `Math.random()` draws), deleting that id
returns 200 but removes both records, shrinking the directory by two, not
one.  And when the present id is the empty string (reachable, since
`Math.random().toString(36).substring(7)` is `""` for small draws such as
0), the `!userId` guard answers 400 instead of 200 and deletes nothing. -/
theorem deleteUser_claim_counterexample :
    ((deleteUser ⟨[mkRec "dup", mkRec "dup"], 0⟩ (some "dup")).2.statusCode = 200 ∧
     (deleteUser ⟨[mkRec "dup", mkRec "dup"], 0⟩ (some "dup")).1.users.length = 0 ∧
     (⟨[mkRec "dup", mkRec "dup"], 0⟩ : ApiState).users.length = 2) ∧
    ((deleteUser ⟨[mkRec ""], 0⟩ (some "")).2.statusCode = 400 ∧
     (deleteUser ⟨[mkRec ""], 0⟩ (some "")).1.users.length = 1) :=
  ⟨⟨rfl, rfl, rfl⟩, rfl, rfl⟩

/-- **C1 (amended).**  For every directory state whose ids are pairwise
distinct and every non-empty id: deleting an absent id returns 404 and
leaves the collection unchanged, and deleting a present id returns 200,
shrinks the collection by exactly one, and a subsequent `getUsers` lists no
record with that id. -/
theorem deleteUser_delete_semantics (s : ApiState) (i : String)
    (hnodup : (s.users.map UserRecord.id).Nodup) (hid : i ≠ "") :
    (i ∉ s.users.map UserRecord.id →
       (deleteUser s (some i)).2.statusCode = 404 ∧
       (deleteUser s (some i)).1.users = s.users) ∧
    (i ∈ s.users.map UserRecord.id →
       (deleteUser s (some i)).2.statusCode = 200 ∧
       (deleteUser s (some i)).1.users.length + 1 = s.users.length ∧
       i ∉ ((getUsers (deleteUser s (some i)).1).2.users.map UserRecord.id)) := by
  constructor
  · intro hnm
    have hf := filter_id_eq_self s.users i hnm
    constructor
    · simp [deleteUser, hid, hf]
    · simp [deleteUser, hid, hf]
  · intro hm
    have hl := filter_id_length s.users i hnodup hm
    have hlt : (s.users.filter (fun u => u.id != i)).length < s.users.length := by
      omega
    have hd : (deleteUser s (some i)).1.users =
        s.users.filter (fun u => u.id != i) := by
      simp [deleteUser, hid, hlt]
    refine ⟨by simp [deleteUser, hid, hlt], ?_, ?_⟩
    · rw [hd]; exact hl
    · show i ∉ ((deleteUser s (some i)).1.users.map UserRecord.id)
      rw [hd]
      exact not_mem_filter_ids s.users i

/-- **C1 (amended), witness** at the two-user state `["a", "b"]` deleting
the present id `"a"`. -/
theorem deleteUser_delete_semantics_witness :
    (deleteUser ⟨[mkRec "a", mkRec "b"], 0⟩ (some "a")).2.statusCode = 200 ∧
    (deleteUser ⟨[mkRec "a", mkRec "b"], 0⟩ (some "a")).1.users.length + 1 =
      (⟨[mkRec "a", mkRec "b"], 0⟩ : ApiState).users.length ∧
    "a" ∉ ((getUsers (deleteUser ⟨[mkRec "a", mkRec "b"], 0⟩ (some "a")).1).2.users.map
      UserRecord.id) :=
  (deleteUser_delete_semantics ⟨[mkRec "a", mkRec "b"], 0⟩ "a"
    (by decide) (by decide)).2 (by decide)

/-- **C2, counterexample.**  `loginRoute` never touches the counter: on a
cold-start state and a well-formed login request the counter stays 0,
refuting the claim that every handler increments it by exactly one. -/
theorem loginRoute_does_not_increment :
    (loginRoute emptyState (some bobBody) none none).1.requestCount = 0 ∧
    (loginRoute emptyState (some bobBody) none none).1.requestCount ≠
      emptyState.requestCount + 1 :=
  ⟨rfl, by decide⟩

/-- **C2 (amended).**  `homeRoute`, `getUsers`, `getRandomQuote`,
`getStats`, a completing `createProfile`, and `deleteUser` with a non-empty
id each increment `requestCount` by exactly one; `deleteUser` on a missing
id and `loginRoute` on any input leave it unchanged; no handler ever
decreases it. -/
theorem requestCount_per_handler (s : ApiState) (ts : String) (r up : ℚ)
    (pb : Option Json) (sv : Option String) (psec : Option Json)
    (b : Json) (nid i : String) (hi : i ≠ "") :
    (homeRoute s ts).1.requestCount = s.requestCount + 1 ∧
    (getUsers s).1.requestCount = s.requestCount + 1 ∧
    (getRandomQuote s r ts).1.requestCount = s.requestCount + 1 ∧
    (getStats s up ts).1.requestCount = s.requestCount + 1 ∧
    (∀ s' cr, createProfile s (some b) nid ts = some (s', cr) →
        s'.requestCount = s.requestCount + 1) ∧
    (deleteUser s (some i)).1.requestCount = s.requestCount + 1 ∧
    (deleteUser s none).1.requestCount = s.requestCount ∧
    (loginRoute s pb sv psec).1.requestCount = s.requestCount := by
  refine ⟨rfl, rfl, rfl, rfl, ?_, ?_, rfl, rfl⟩
  · intro s' cr h
    exact (createProfile_some h).2.2.1
  · simp only [deleteUser]
    rw [if_neg hi]
    split <;> rfl

/-- **C2 (amended), witness** at a cold-start state with concrete inputs
for every handler. -/
theorem requestCount_per_handler_witness :
    (homeRoute emptyState "t").1.requestCount = 0 + 1 ∧
    (getUsers emptyState).1.requestCount = 0 + 1 ∧
    (getRandomQuote emptyState 0 "t").1.requestCount = 0 + 1 ∧
    (getStats emptyState 0 "t").1.requestCount = 0 + 1 ∧
    undefState.requestCount = 0 + 1 ∧
    (deleteUser emptyState (some "x")).1.requestCount = 0 + 1 ∧
    (deleteUser emptyState none).1.requestCount = 0 ∧
    (loginRoute emptyState (some bobBody) none none).1.requestCount = 0 := by
  have h := requestCount_per_handler emptyState "t" 0 0 (some bobBody) none none
    (Json.jobj []) "i" "x" (by decide)
  exact ⟨h.1, h.2.1, h.2.2.1, h.2.2.2.1, h.2.2.2.2.1 undefState undefResp rfl,
    h.2.2.2.2.2.1, h.2.2.2.2.2.2.1, h.2.2.2.2.2.2.2⟩

/-- **C3, counterexample.**  Ids are independent `Math.random()` draws and
nothing rejects a collision: running two creates whose generated ids are
both `"x"` succeeds, yields directory size 2, and the returned ids are not
pairwise distinct. -/
theorem create_ids_can_collide :
    ((runCreates emptyState dupDraws).map (fun s => s.users.map UserRecord.id)) =
      some ["x", "x"] ∧
    ((runCreates emptyState dupDraws).map (fun s => s.users.length)) = some 2 ∧
    ¬ (["x", "x"] : List String).Nodup :=
  ⟨rfl, rfl, by decide⟩

/-- **C3 (amended).**  After any successful sequence of N creates from a
cold start the directory size equals N, and the returned ids are pairwise
distinct whenever the N generated id strings are (uniqueness is only as
good as the randomness, as the counterexample shows). -/
theorem createMany_size_and_ids (inputs : List (Json × String × String))
    (s' : ApiState) (h : runCreates emptyState inputs = some s') :
    s'.users.length = inputs.length ∧
    ((inputs.map (fun t => t.2.1)).Nodup →
      (s'.users.map UserRecord.id).Nodup) := by
  have hid := runCreates_ids inputs emptyState s' h
  simp only [emptyState, List.map_nil, List.nil_append] at hid
  constructor
  · have hlen := congrArg List.length hid
    simpa using hlen
  · intro hnd
    rw [hid]
    exact hnd

/-- **C3 (amended), witness**: two creates with distinct generated ids give
size 2 and distinct stored ids. -/
theorem createMany_size_and_ids_witness :
    twoState.users.length = twoDraws.length ∧
    (twoState.users.map UserRecord.id).Nodup :=
  ⟨(createMany_size_and_ids twoDraws twoState rfl).1,
   (createMany_size_and_ids twoDraws twoState rfl).2 (by decide)⟩

/-- **C4.**  For a body carrying a non-empty string username: if the email
field is absent or the empty string, the stored-and-returned record gets
the derived email `username ++ "@example.com"`; a supplied non-empty email
string is stored unchanged.  In both cases the record returned is exactly
the one appended. -/
theorem createProfile_email_default (s : ApiState) (body : Json)
    (u nid ts : String)
    (hu : getProp body "username" = some (Json.jstr u)) (_hune : u ≠ "") :
    ((getProp body "email" = none ∨ getProp body "email" = some (Json.jstr "")) →
       ∀ s' r, createProfile s (some body) nid ts = some (s', r) →
         r.user.email = Json.jstr (u ++ "@example.com") ∧
         s'.users = s.users ++ [r.user]) ∧
    (∀ e : String, getProp body "email" = some (Json.jstr e) → e ≠ "" →
       ∀ s' r, createProfile s (some body) nid ts = some (s', r) →
         r.user.email = Json.jstr e ∧ s'.users = s.users ++ [r.user]) ∧
    (createProfile s (some body) nid ts).isSome = true := by
  cases body
  case null => simp [getProp] at hu
  case jbool bb => simp [getProp] at hu
  case jnum n => simp [getProp] at hu
  case jstr st => simp [getProp] at hu
  case jarr xs => simp [getProp] at hu
  case jobj fs =>
    refine ⟨?_, ?_, rfl⟩
    · rintro he s' r hcr
      simp only [createProfile, Option.some.injEq, Prod.mk.injEq] at hcr
      obtain ⟨hs, hr⟩ := hcr
      subst hs; subst hr
      refine ⟨?_, rfl⟩
      show (match getProp (Json.jobj fs) "email" with
            | some e => if truthy e then e
                else Json.jstr (jsOptToString (getProp (Json.jobj fs) "username")
                  ++ "@example.com")
            | none => Json.jstr (jsOptToString (getProp (Json.jobj fs) "username")
                ++ "@example.com")) = Json.jstr (u ++ "@example.com")
      rcases he with he | he <;> rw [he, hu] <;> rfl
    · rintro e he hene s' r hcr
      simp only [createProfile, Option.some.injEq, Prod.mk.injEq] at hcr
      obtain ⟨hs, hr⟩ := hcr
      subst hs; subst hr
      refine ⟨?_, rfl⟩
      show (match getProp (Json.jobj fs) "email" with
            | some e => if truthy e then e
                else Json.jstr (jsOptToString (getProp (Json.jobj fs) "username")
                  ++ "@example.com")
            | none => Json.jstr (jsOptToString (getProp (Json.jobj fs) "username")
                ++ "@example.com")) = Json.jstr e
      rw [he]
      have ht : truthy (Json.jstr e) = true := by simp [truthy, hene]
      simp [ht]

/-- **C4, witness** at `aliceBody`: the empty email string triggers the
default, giving `alice@example.com`. -/
theorem createProfile_email_default_witness :
    aliceResp.user.email = Json.jstr ("alice" ++ "@example.com") ∧
    aliceState.users = emptyState.users ++ [aliceResp.user] :=
  (createProfile_email_default emptyState aliceBody "alice" "i" "t" rfl
    (by decide)).1 (Or.inr rfl) aliceState aliceResp rfl

set_option maxRecDepth 100000 in
/-- Validation of the hash embedding against the published test vectors:
SHA-256 of the empty message and of `"abc"` (FIPS 180-4), and HMAC-SHA256
of a classic reference input. -/
theorem sha256_test_vectors :
    hexDigest (sha256 []) =
      "e3b0c44298fc1c149afbf4c8996fb92427ae41e4649b934ca495991b7852b855" ∧
    hexDigest (sha256 (utf8Bytes "abc")) =
      "ba7816bf8f01cfea414140de5dae2223b00361a396177a9cb410ff61f20015ad" ∧
    hexDigest (hmacSha256 (utf8Bytes "key")
        (utf8Bytes "The quick brown fox jumps over the lazy dog")) =
      "f7bc83f430538424b13298e6aa6fb143ef4d59a14946175997479dbc2d1a3cd8" := by
  refine ⟨by decide, by decide, by decide⟩

/-- **C5.**  The digest computation of `loginRoute` is a pure function of
the key and username — the same pair always yields the same digest, with no
other state and no randomness in the embedding — and every digest is a
64-character string of lower-case hexadecimal digits. -/
theorem authenticate_deterministic_hex (encryptionKey username : String) :
    authenticate encryptionKey username = authenticate encryptionKey username ∧
    (authenticate encryptionKey username).length = 64 ∧
    (authenticate encryptionKey username).data.all
      (fun c => decide (c ∈ hexChars)) = true := by
  refine ⟨rfl, ?_, ?_⟩
  · have hlen : ∀ l : List Char, (String.mk l).length = l.length := fun _ => rfl
    show (String.mk ((hmacSha256 (utf8Bytes encryptionKey)
      (utf8Bytes username)).flatMap hexOfByte)).length = 64
    rw [hlen, length_flatMap_hexOfByte, hmacSha256_length]
  · rw [List.all_eq_true]
    intro c hc
    have hc' : c ∈ (hmacSha256 (utf8Bytes encryptionKey)
        (utf8Bytes username)).flatMap hexOfByte := hc
    obtain ⟨b, -, hb⟩ := List.mem_flatMap.mp hc'
    simpa using mem_hexOfByte hb

/-- **C6, counterexample.**  A further internal failure answers 500 beyond
the causes the claim lists: with a well-formed body, a resolvable secret
and a successfully parsed secret object that merely lacks an
`encryptionKey` field, `createHmac` receives `undefined` and throws, so the
handler returns 500 although neither a secret-parse failure nor a
malformed/non-string username occurred. -/
theorem loginRoute_500_beyond_spec_causes :
    (loginRoute emptyState (some bobBody) (some "\x7b\x7d")
        (some (Json.jobj []))).2.statusCode = 500 ∧
    loginFailsPerSpec (some bobBody) (some "\x7b\x7d")
        (some (Json.jobj [])) = false :=
  ⟨rfl, rfl⟩

/-- **C6 (amended).**  `loginRoute` answers 500 exactly when a throw
reaches its catch — body parse failure, body parsed to `null`, non-string
username, or (when the secret resolves to a truthy string) secret parse
failure, secret parsed to `null`, or a parsed secret without a string
`encryptionKey` — and 200 otherwise; the 500 body is the generic message
with no internal detail; an unresolvable secret is not a failure: the
digest is computed with the empty key. -/
theorem loginRoute_error_semantics (s : ApiState) (pb : Option Json)
    (sv : Option String) (psec : Option Json) :
    ((loginRoute s pb sv psec).2.statusCode = 500 ↔
      loginFails pb sv psec = true) ∧
    ((loginRoute s pb sv psec).2.statusCode = 200 ↔
      loginFails pb sv psec = false) ∧
    (loginFails pb sv psec = true →
      (loginRoute s pb sv psec).2 =
        { statusCode := 500, username := none,
          message := some "Internal Server Error" }) ∧
    ((loginRoute s pb sv psec).1 = s) ∧
    (∀ b u, pb = some b → getProp b "username" = some (Json.jstr u) →
       sv = none →
       (loginRoute s pb sv psec).2 =
         { statusCode := 200, username := some (authenticate "" u),
           message := none }) := by
  have hr : (loginRoute s pb sv psec).2 = loginResponse pb sv psec := rfl
  have key : ∀ b u, pb = some b → getProp b "username" = some (Json.jstr u) →
      sv = none → loginKeyUser pb sv psec = some ("", u) := by
    intro b u hpb hun hsv
    subst hpb; subst hsv
    cases b
    case jobj fs =>
      simp only [loginKeyUser, jsIsNull, Bool.false_eq_true, if_false,
        secretTruthy]
      rw [hun]
    all_goals simp [getProp] at hun
  rcases hku : loginKeyUser pb sv psec with _ | ku
  · have he : loginResponse pb sv psec =
        { statusCode := 500, username := none,
          message := some "Internal Server Error" } := by
      rw [loginResponse_eq, hku]
    have hf : loginFails pb sv psec = true := by
      simp [loginFails, hku]
    refine ⟨?_, ?_, ?_, rfl, ?_⟩
    · rw [hr, he]; simp [hf]
    · rw [hr, he]; simp [hf]
    · intro _; rw [hr, he]
    · intro b u hpb hun hsv
      have := key b u hpb hun hsv
      rw [hku] at this
      exact absurd this (by simp)
  · have he : loginResponse pb sv psec =
        { statusCode := 200, username := some (authenticate ku.1 ku.2),
          message := none } := by
      rw [loginResponse_eq, hku]
    have hf : loginFails pb sv psec = false := by
      simp [loginFails, hku]
    refine ⟨?_, ?_, ?_, rfl, ?_⟩
    · rw [hr, he]; simp [hf]
    · rw [hr, he]; simp [hf]
    · intro hcontra; rw [hf] at hcontra; exact absurd hcontra (by simp)
    · intro b u hpb hun hsv
      have hk := key b u hpb hun hsv
      rw [hku] at hk
      have hke : ku = ("", u) := Option.some.inj hk
      rw [hr, he, hke]

/-- **C6 (amended), witness**: a well-formed username with an unresolvable
secret gets the 200 response carrying the empty-key digest. -/
theorem loginRoute_error_semantics_witness :
    (loginRoute emptyState (some bobBody) none none).2 =
      { statusCode := 200, username := some (authenticate "" "bob"),
        message := none } :=
  (loginRoute_error_semantics emptyState (some bobBody) none none).2.2.2.2
    bobBody "bob" rfl rfl rfl

/-- **C7.**  For every draw in `[0, 1)` the selected index is in bounds, so
`getRandomQuote` answers with an element of the fixed eight-quote catalog,
never anything outside it, and the user collection is untouched. -/
theorem getRandomQuote_in_catalog (s : ApiState) (r : ℚ) (ts : String)
    (h0 : 0 ≤ r) (h1 : r < 1) :
    Int.toNat ⌊r * (quotes.length : ℚ)⌋ < quotes.length ∧
    (getRandomQuote s r ts).2.quote.isSome = true ∧
    (∀ q, (getRandomQuote s r ts).2.quote = some q → q ∈ quotes) ∧
    (getRandomQuote s r ts).1.users = s.users := by
  have hq : quotes.length = 8 := rfl
  have h8 : (quotes.length : ℚ) = 8 := by rw [hq]; norm_num
  have hnn : (0 : ℤ) ≤ ⌊r * (quotes.length : ℚ)⌋ := by
    apply Int.floor_nonneg.mpr
    positivity
  have hlt : ⌊r * (quotes.length : ℚ)⌋ < (8 : ℤ) := by
    apply Int.floor_lt.mpr
    rw [h8]
    push_cast
    nlinarith
  have hidx : Int.toNat ⌊r * (quotes.length : ℚ)⌋ < quotes.length := by
    have hn : Int.toNat ⌊r * (quotes.length : ℚ)⌋ < 8 := by omega
    exact lt_of_lt_of_eq hn hq.symm
  refine ⟨hidx, ?_, ?_, rfl⟩
  · show (quotes[Int.toNat ⌊r * (quotes.length : ℚ)⌋]?).isSome = true
    rw [List.getElem?_eq_getElem hidx]
    rfl
  · intro q hget
    have hget' : quotes[Int.toNat ⌊r * (quotes.length : ℚ)⌋]? = some q := hget
    rw [List.getElem?_eq_getElem hidx] at hget'
    have hq' := Option.some.inj hget'
    rw [← hq']
    exact List.getElem_mem hidx

/-- **C7, witness** at the draw `1/2`. -/
theorem getRandomQuote_in_catalog_witness :
    Int.toNat ⌊(1 / 2 : ℚ) * (quotes.length : ℚ)⌋ < quotes.length ∧
    (getRandomQuote emptyState (1 / 2) "t").2.quote.isSome = true ∧
    (getRandomQuote emptyState (1 / 2) "t").1.users = emptyState.users :=
  ⟨(getRandomQuote_in_catalog emptyState (1 / 2) "t" (by norm_num)
      (by norm_num)).1,
   (getRandomQuote_in_catalog emptyState (1 / 2) "t" (by norm_num)
      (by norm_num)).2.1,
   (getRandomQuote_in_catalog emptyState (1 / 2) "t" (by norm_num)
      (by norm_num)).2.2.2⟩

/-- **C8.**  DELETE with no id path parameter returns the 400 response and
is atomic: the user collection and the request counter are both exactly as
before. -/
theorem deleteUser_missing_id_atomic (s : ApiState) :
    deleteUser s none =
      (s, { statusCode := 400, message := "User ID is required",
            remainingUsers := none }) ∧
    (deleteUser s none).1.users = s.users ∧
    (deleteUser s none).1.requestCount = s.requestCount :=
  ⟨rfl, rfl, rfl⟩

/-- **C9, counterexample.**  The claim quantifies over every request body,
but a body that is not valid JSON makes the uncaught `JSON.parse` throw
escape `createProfile` — no 201, no appended record.  And with username
absent, a truthy supplied email is stored as given, not as
`undefined@example.com`. -/
theorem createProfile_unparsable_body_throws :
    createProfile emptyState none "x" "t" = none ∧
    ((createProfile emptyState
        (some (Json.jobj [("email", Json.jstr "kept@example.com")]))
        "x" "t").map (fun p => p.2.user.email)) =
      some (Json.jstr "kept@example.com") :=
  ⟨rfl, rfl⟩

/-- **C9 (amended).**  For every body that parses to a non-`null` JSON
value, `createProfile` performs no validation: it returns 201 and appends
exactly one record; when the username field is absent and no truthy email
is supplied, the stored email is `undefined@example.com`.  An unparsable
body or a body parsing to `null` escapes as an uncaught throw with no state
change. -/
theorem createProfile_no_validation (s : ApiState) (b : Json)
    (nid ts : String) (hb : b ≠ Json.null) :
    (createProfile s (some b) nid ts).isSome = true ∧
    (∀ s' r, createProfile s (some b) nid ts = some (s', r) →
       r.statusCode = 201 ∧ s'.users = s.users ++ [r.user] ∧
       s'.users.length = s.users.length + 1 ∧
       (getProp b "username" = none →
        optTruthy (getProp b "email") = false →
        r.user.email = Json.jstr "undefined@example.com")) ∧
    createProfile s none nid ts = none ∧
    createProfile s (some Json.null) nid ts = none := by
  refine ⟨?_, ?_, rfl, rfl⟩
  · cases b
    case null => exact absurd rfl hb
    all_goals rfl
  · intro s' r h
    obtain ⟨h1, -, -, h4⟩ := createProfile_some h
    have hemail := createProfile_email h
    refine ⟨h4, h1, by rw [h1]; simp, ?_⟩
    intro hun hem
    rw [hemail]
    rcases hge : getProp b "email" with _ | ev
    · rw [hun]
      exact congrArg Json.jstr (by decide)
    · rw [hge] at hem
      simp only [optTruthy] at hem
      rw [hun]
      simp only [hem, Bool.false_eq_true, if_false]
      exact congrArg Json.jstr (by decide)

/-- **C9 (amended), witness** at the empty-object body. -/
theorem createProfile_no_validation_witness :
    (createProfile emptyState (some (Json.jobj [])) "i" "t").isSome = true ∧
    undefResp.statusCode = 201 ∧
    undefState.users = emptyState.users ++ [undefResp.user] ∧
    undefResp.user.email = Json.jstr "undefined@example.com" := by
  have h := createProfile_no_validation emptyState (Json.jobj []) "i" "t"
    (fun hh => Json.noConfusion hh)
  have h2 := h.2.1 undefState undefResp rfl
  exact ⟨h.1, h2.1, h2.2.1, h2.2.2.2 rfl rfl⟩

/-- **C10.**  `getStats` increments before it reads: the reported
`totalRequests` is the pre-call counter plus one (hence at least 1) and
`totalUsers` is the live collection size, which the handler leaves
untouched. -/
theorem getStats_counts_itself (s : ApiState) (up : ℚ) (ts : String) :
    (getStats s up ts).2.totalRequests = s.requestCount + 1 ∧
    1 ≤ (getStats s up ts).2.totalRequests ∧
    (getStats s up ts).2.totalUsers = s.users.length ∧
    (getStats s up ts).1.requestCount = s.requestCount + 1 ∧
    (getStats s up ts).1.users = s.users := by
  refine ⟨rfl, ?_, rfl, rfl, rfl⟩
  show 1 ≤ s.requestCount + 1
  omega

end Gateway
